import Mathlib

/-!
Verification of the vh-board kanban client.

The definitions below are a shallow embedding of the TypeScript source:
the ticket and vote repositories (`src/lib/ticketsApi.ts`, `src/lib/votesApi.ts`),
the anonymous identity provider (`getOrCreateVoterId`), and the board
controller of the main Svelte page (tickets grouped by column, optimistic
mutations, inline edit session, vote toggling, render-time sort).

Remote effects are made explicit: a remote call's outcome is a parameter
(`Option String` for a write that may fail with a message, `Except String _`
for a read), and the sequence of remote operations a handler issues is
returned as a `List RemoteOp` trace.  Browser storage is an
`Option String` value for the single key `voter_id`.
-/

namespace VhBoard

/-- A ticket row, as declared in `ticketsApi.ts` (`rowSpan`/`colSpan` are
optional and unused by the logic). -/
structure Ticket where
  id : String
  title : String
  column : String
  order : Int
  rowSpan : Option Int := none
  colSpan : Option Int := none
  content : Option String := none
deriving DecidableEq

/-- A vote row, as declared in `votesApi.ts`. -/
structure Vote where
  id : String
  ticket_id : String
  voter_id : String
deriving DecidableEq

/-- `ticket.content || ''`: JavaScript coalesces a missing (or empty)
content to the empty string. -/
def contentOrEmpty (t : Ticket) : String := t.content.getD ""

/- ## Identity provider (`getOrCreateVoterId`, browser path of
`getCurrentVoterId`) -/

/-- `getOrCreateVoterId` over the browser-local store for key `voter_id`.
`stored` is the current value (`none` when the key is absent), `freshId`
the UUID `crypto.randomUUID()` would produce on this call.  Returns the
id handed back and the store afterwards.  JavaScript's `if (!id)` also
treats the empty string as absent. -/
def getOrCreateVoterId (stored : Option String) (freshId : String) :
    String × Option String :=
  let id := stored.getD ""
  if id = "" then (freshId, some freshId) else (id, stored)

/- ## Vote repository and vote toggling -/

/-- `hasVoted`: linear scan of the in-memory votes list. -/
def hasVoted (votes : List Vote) (ticketId voterId : String) : Bool :=
  votes.any (fun v => v.ticket_id == ticketId && v.voter_id == voterId)

/-- `getVoteCount`: number of votes whose `ticket_id` matches the ticket. -/
def getVoteCount (votes : List Vote) (t : Ticket) : Nat :=
  (votes.filter (fun v => v.ticket_id == t.id)).length

/-- `removeVote`: the remote delete keyed on both `ticket_id` and
`voter_id` removes every matching row. -/
def removeVoteRows (table : List Vote) (ticketId voterId : String) : List Vote :=
  table.filter (fun v => !(v.ticket_id == ticketId && v.voter_id == voterId))

/-- `addVote`: unconditional insert of one `(ticket_id, voter_id)` row;
the backend assigns `newId`. -/
def addVoteRow (table : List Vote) (ticketId voterId newId : String) : List Vote :=
  table ++ [{ id := newId, ticket_id := ticketId, voter_id := voterId }]

/-- Number of rows matching a `(ticket_id, voter_id)` pair. -/
def countMatching (table : List Vote) (ticketId voterId : String) : Nat :=
  (table.filter (fun v => v.ticket_id == ticketId && v.voter_id == voterId)).length

/-- State seen by `toggleVote`: the component's in-memory `votes` snapshot,
the remote votes table, and the page's error flag. -/
structure VoteSystem where
  votes : List Vote
  remoteVotes : List Vote
  error : Option String := none
deriving DecidableEq

/-- `toggleVote` from the main page: check `hasVoted` on the local
snapshot; if present, issue the remote delete, else the remote insert;
on success `loadVotes()` refetches the remote table into `votes`; on
failure only the error flag is set.  `remoteResult` is the remote write's
outcome (`none` = success), `newId` the id the backend would assign to an
inserted row. -/
def toggleVote (s : VoteSystem) (ticketId voterId newId : String)
    (remoteResult : Option String) : VoteSystem :=
  if hasVoted s.votes ticketId voterId then
    match remoteResult with
    | none =>
      let table := removeVoteRows s.remoteVotes ticketId voterId
      { s with remoteVotes := table, votes := table }
    | some msg => { s with error := some msg }
  else
    match remoteResult with
    | none =>
      let table := addVoteRow s.remoteVotes ticketId voterId newId
      { s with remoteVotes := table, votes := table }
    | some msg => { s with error := some msg }

/- ## Helper lemmas on votes -/

theorem hasVoted_iff_countMatching_pos (votes : List Vote) (t v : String) :
    hasVoted votes t v = true ↔ 0 < countMatching votes t v := by
  simp [hasVoted, countMatching, List.any_eq_true, List.length_pos,
    List.mem_filter, List.filter_eq_nil_iff]

theorem countMatching_removeVoteRows (table : List Vote) (t v : String) :
    countMatching (removeVoteRows table t v) t v = 0 := by
  simp [countMatching, removeVoteRows, List.filter_filter]

theorem countMatching_addVoteRow (table : List Vote) (t v newId : String) :
    countMatching (addVoteRow table t v newId) t v = countMatching table t v + 1 := by
  simp [countMatching, addVoteRow, List.filter_append]

/-- C1: after `toggleVote` settles successfully with the local snapshot in
sync with the remote table (no concurrent toggle on the pair), exactly one
of the two outcomes holds: a voter who had at least one vote on the ticket
has none afterwards (the delete removes every matching row), and a voter
who had none has exactly one; the refetched snapshot matches the remote
table. -/
theorem toggleVote_strict_complement (s : VoteSystem) (ticketId voterId newId : String)
    (hsync : s.votes = s.remoteVotes) :
    (0 < countMatching s.votes ticketId voterId →
      countMatching (toggleVote s ticketId voterId newId none).remoteVotes ticketId voterId = 0)
    ∧ (countMatching s.votes ticketId voterId = 0 →
      countMatching (toggleVote s ticketId voterId newId none).remoteVotes ticketId voterId = 1)
    ∧ (toggleVote s ticketId voterId newId none).votes
        = (toggleVote s ticketId voterId newId none).remoteVotes := by
  by_cases h : hasVoted s.votes ticketId voterId = true
  · refine ⟨fun _ => ?_, fun hz => ?_, ?_⟩
    · simp [toggleVote, h, countMatching_removeVoteRows]
    · exact absurd hz (by
        have := (hasVoted_iff_countMatching_pos s.votes ticketId voterId).mp h
        omega)
    · simp [toggleVote, h]
  · have hz : countMatching s.votes ticketId voterId = 0 := by
      have := (hasVoted_iff_countMatching_pos s.votes ticketId voterId).not
      simp [h] at this
      omega
    refine ⟨fun hpos => absurd hpos (by omega), fun _ => ?_, ?_⟩
    · simp [toggleVote, h, countMatching_addVoteRow, ← hsync, hz]
    · simp [toggleVote, h]

/-- C1 witness: `toggleVote` applied in a concrete synced state. -/
theorem toggleVote_strict_complement_witness :
    (0 < countMatching [] "t1" "v1" →
      countMatching (toggleVote ⟨[], [], none⟩ "t1" "v1" "n1" none).remoteVotes "t1" "v1" = 0)
    ∧ (countMatching [] "t1" "v1" = 0 →
      countMatching (toggleVote ⟨[], [], none⟩ "t1" "v1" "n1" none).remoteVotes "t1" "v1" = 1)
    ∧ (toggleVote ⟨[], [], none⟩ "t1" "v1" "n1" none).votes
        = (toggleVote ⟨[], [], none⟩ "t1" "v1" "n1" none).remoteVotes :=
  toggleVote_strict_complement ⟨[], [], none⟩ "t1" "v1" "n1" rfl

/-- C7: in a browser profile, the first call to the voter-identity getter
generates an id, stores it under `voter_id` and returns it; a subsequent
call returns exactly the stored value without modifying storage, so two
calls yield equal results.  Generated UUIDs are nonempty strings. -/
theorem getOrCreateVoterId_first_then_stable (f1 f2 v : String)
    (h1 : f1 ≠ "") (hv : v ≠ "") :
    getOrCreateVoterId none f1 = (f1, some f1)
    ∧ getOrCreateVoterId (getOrCreateVoterId none f1).2 f2 = (f1, some f1)
    ∧ getOrCreateVoterId (some v) f2 = (v, some v) := by
  refine ⟨by simp [getOrCreateVoterId], ?_, by simp [getOrCreateVoterId, hv]⟩
  simp [getOrCreateVoterId, h1]

/-- C7 witness: first and second calls with concrete fresh ids. -/
theorem getOrCreateVoterId_first_then_stable_witness :
    ("a" : String) ≠ "" ∧
    (getOrCreateVoterId none "a" = ("a", some "a")
      ∧ getOrCreateVoterId (getOrCreateVoterId none "a").2 "b" = ("a", some "a")
      ∧ getOrCreateVoterId (some "c") "b" = ("c", some "c")) :=
  ⟨by decide, getOrCreateVoterId_first_then_stable "a" "b" "c" (by decide) (by decide)⟩

/- ## Ticket repository: fetch and group by column -/

/-- One iteration of the grouping loop in `fetchTickets`:
`grouped[ticket.column]` is created if absent and the ticket pushed onto
it.  The mapping sends a column name to its bucket (absent key = `[]`). -/
def groupStep (g : String → List Ticket) (t : Ticket) : String → List Ticket :=
  fun c => if c = t.column then g c ++ [t] else g c

/-- `fetchTickets`, client side: `rows` is the remote response (all
tickets, ordered ascending by `order`); the loop partitions them by
`column`, preserving fetch order within each bucket. -/
def fetchTickets (rows : List Ticket) : String → List Ticket :=
  rows.foldl groupStep (fun _ => [])

theorem foldl_groupStep (rows : List Ticket) (g : String → List Ticket) (c : String) :
    (rows.foldl groupStep g) c = g c ++ rows.filter (fun t => t.column == c) := by
  induction rows generalizing g with
  | nil => simp
  | cons t rows ih =>
    rw [List.foldl_cons, ih, List.filter_cons]
    by_cases h : t.column = c
    · simp [groupStep, h]
    · have h' : ¬ c = t.column := fun hc => h hc.symm
      simp [groupStep, h, h']

theorem fetchTickets_eq_filter (rows : List Ticket) (c : String) :
    fetchTickets rows c = rows.filter (fun t => t.column == c) := by
  simp [fetchTickets, foldl_groupStep]

/-- C2: for rows fetched in ascending `order`, every ticket lands in
exactly the bucket keyed by its `column` field — its multiplicity in
bucket `c` is its multiplicity in the fetched rows when `c = t.column`
and `0` otherwise — and each bucket stays non-decreasing in `order`. -/
theorem fetchTickets_partition (rows : List Ticket) (t : Ticket) (c : String)
    (hsorted : rows.Pairwise (fun a b => a.order ≤ b.order)) :
    (fetchTickets rows c).count t = (if t.column = c then rows.count t else 0)
    ∧ (fetchTickets rows c).Pairwise (fun a b => a.order ≤ b.order) := by
  rw [fetchTickets_eq_filter]
  refine ⟨?_, hsorted.filter _⟩
  by_cases h : t.column = c
  · rw [if_pos h]
    exact List.count_filter (by simp [h])
  · rw [if_neg h]
    rw [List.count_eq_zero]
    intro hmem
    exact h (by simpa using (List.mem_filter.mp hmem).2)

/-- C2 witness: two fetched rows in one column. -/
theorem fetchTickets_partition_witness :
    ([({ id := "a", title := "T1", column := "Good", order := 1 } : Ticket),
      { id := "b", title := "T2", column := "Good", order := 2 }].Pairwise
        (fun a b => a.order ≤ b.order))
    ∧ ((fetchTickets [{ id := "a", title := "T1", column := "Good", order := 1 },
          { id := "b", title := "T2", column := "Good", order := 2 }] "Good").count
            { id := "a", title := "T1", column := "Good", order := 1 }
        = (if ("Good" : String) = "Good" then
            ([({ id := "a", title := "T1", column := "Good", order := 1 } : Ticket),
              { id := "b", title := "T2", column := "Good", order := 2 }].count
                { id := "a", title := "T1", column := "Good", order := 1 })
          else 0)
      ∧ (fetchTickets [{ id := "a", title := "T1", column := "Good", order := 1 },
          { id := "b", title := "T2", column := "Good", order := 2 }] "Good").Pairwise
            (fun a b => a.order ≤ b.order)) :=
  ⟨by decide, by
    have h := fetchTickets_partition
      [{ id := "a", title := "T1", column := "Good", order := 1 },
       { id := "b", title := "T2", column := "Good", order := 2 }]
      { id := "a", title := "T1", column := "Good", order := 1 } "Good" (by decide)
    simpa using h⟩

/- ## Render-time sort by descending vote count -/

/-- The render comparator `(a, b) => getVoteCount(b) - getVoteCount(a)`:
`a` may precede `b` exactly when `a`'s vote count is at least `b`'s. -/
def voteLe (votes : List Vote) (a b : Ticket) : Bool :=
  getVoteCount votes b ≤ getVoteCount votes a

/-- The render-time sort of a column's tickets by descending vote count
(`.sort((a, b) => getVoteCount(b) - getVoteCount(a))`). -/
def renderSort (votes : List Vote) (ts : List Ticket) : List Ticket :=
  ts.mergeSort (voteLe votes)

theorem voteLe_trans (votes : List Vote) (a b c : Ticket)
    (hab : voteLe votes a b = true) (hbc : voteLe votes b c = true) :
    voteLe votes a c = true := by
  simp [voteLe] at hab hbc ⊢
  omega

theorem voteLe_total (votes : List Vote) (a b : Ticket) :
    (voteLe votes a b || voteLe votes b a) = true := by
  simp [voteLe]
  omega

/-- C5: for a fixed votes snapshot, the rendered sequence is
non-increasing in vote count and is a permutation of the column's list —
each ticket identity keeps its multiplicity, membership is unchanged, and
the multiset of stored `order` fields is untouched. -/
theorem renderSort_spec (votes : List Vote) (ts : List Ticket) (t : Ticket) :
    (renderSort votes ts).Pairwise
      (fun a b => getVoteCount votes b ≤ getVoteCount votes a)
    ∧ (renderSort votes ts).Perm ts
    ∧ (renderSort votes ts).count t = ts.count t
    ∧ (t ∈ renderSort votes ts ↔ t ∈ ts)
    ∧ ((renderSort votes ts).map Ticket.order).Perm (ts.map Ticket.order) := by
  have hperm : (renderSort votes ts).Perm ts :=
    List.mergeSort_perm ts (voteLe votes)
  refine ⟨?_, hperm, hperm.count_eq t, hperm.mem_iff, hperm.map _⟩
  have hs := List.sorted_mergeSort (voteLe_trans votes) (voteLe_total votes) ts
  exact hs.imp (fun h => by simpa [voteLe] using h)

/- ## Board controller view model -/

/-- The remote operations a handler may issue, recorded as a trace. -/
inductive RemoteOp where
  | updateOp (id title content : String)
  | deleteOp (id : String)
  | insertOp (column title content : String) (ord : Int)
  | fetchOp
deriving DecidableEq

/-- The main page's view model: tickets grouped by column (absent key =
`[]`), the loading and error flags, the votes snapshot, and the inline
edit session state. -/
structure BoardModel where
  ticketsByColumn : String → List Ticket
  loading : Bool
  error : Option String
  votes : List Vote
  editingTicketId : Option String
  editingTitle : String
  editingContent : String

/-- `refreshTickets`: set `loading`, await `fetchTickets()` on the rows
the remote read returns, store the grouped result or the failure's
message, and clear `loading` in the `finally`. -/
def refreshTickets (m : BoardModel) (fetchResult : Except String (List Ticket)) :
    BoardModel × List RemoteOp :=
  match fetchResult with
  | Except.ok rows =>
    ({ m with ticketsByColumn := fetchTickets rows, loading := false },
      [RemoteOp.fetchOp])
  | Except.error msg =>
    ({ m with error := some msg, loading := false }, [RemoteOp.fetchOp])

/-- `startEdit`: a no-op when the ticket is already being edited,
otherwise it makes this ticket the (single) edit session and seeds the
editing fields from the ticket's current values. -/
def startEdit (m : BoardModel) (ticket : Ticket) : BoardModel :=
  if m.editingTicketId = some ticket.id then m
  else
    { m with
      editingTicketId := some ticket.id,
      editingTitle := ticket.title,
      editingContent := contentOrEmpty ticket }

/-- `saveEdit`: bail out when no edit session is active; when the edited
title or content differs from the ticket's, optimistically rewrite the
ticket's bucket, end the session, and issue the remote update
(`updateResult`; `none` = success) — on failure record the message and
run `refreshTickets` on `fetchResult`; when nothing changed, just end the
session. -/
def saveEdit (m : BoardModel) (ticket : Ticket) (updateResult : Option String)
    (fetchResult : Except String (List Ticket)) : BoardModel × List RemoteOp :=
  match m.editingTicketId with
  | none => (m, [])
  | some _ =>
    if m.editingTitle ≠ ticket.title ∨ m.editingContent ≠ contentOrEmpty ticket then
      let updatedTicket :=
        { ticket with title := m.editingTitle, content := some m.editingContent }
      let m1 :=
        { m with
          ticketsByColumn := fun c =>
            if c = ticket.column then
              (m.ticketsByColumn ticket.column).map
                (fun t => if t.id = ticket.id then updatedTicket else t)
            else m.ticketsByColumn c,
          editingTicketId := none }
      match updateResult with
      | none =>
        (m1, [RemoteOp.updateOp ticket.id m.editingTitle m.editingContent])
      | some msg =>
        let m2 := { m1 with error := some msg }
        let res := refreshTickets m2 fetchResult
        (res.1, RemoteOp.updateOp ticket.id m.editingTitle m.editingContent :: res.2)
    else
      ({ m with editingTicketId := none }, [])

/-- Title of every freshly added ticket. -/
def placeholderTitle : String := "New Ticket"

/-- Placeholder content of every freshly added ticket. -/
def placeholderContent : String := "Double-click to edit title and details"

/-- The row `handleInstantAddTicket` inserts (and the backend echoes back
with its generated id). -/
def newTicketRow (columnTitle newId : String) (ord : Int) : Ticket :=
  { id := newId, title := placeholderTitle, column := columnTitle,
    order := ord, content := some placeholderContent }

/-- `handleInstantAddTicket`: compute `order` as the column's current
count plus one, insert the placeholder row remotely
(`insertResult` carries the generated id on success), append the returned
row to the column's bucket and enter edit mode on it; on failure set the
error flag. -/
def handleInstantAddTicket (m : BoardModel) (columnTitle : String)
    (insertResult : Except String String) : BoardModel × List RemoteOp :=
  let ord : Int := (m.ticketsByColumn columnTitle).length + 1
  match insertResult with
  | Except.ok newId =>
    let row := newTicketRow columnTitle newId ord
    ({ m with
        ticketsByColumn := fun c =>
          if c = columnTitle then m.ticketsByColumn columnTitle ++ [row]
          else m.ticketsByColumn c,
        editingTicketId := some newId,
        editingTitle := row.title,
        editingContent := placeholderContent },
      [RemoteOp.insertOp columnTitle placeholderTitle placeholderContent ord])
  | Except.error msg =>
    ({ m with error := some msg },
      [RemoteOp.insertOp columnTitle placeholderTitle placeholderContent ord])

/-- The optimistic step of `removeTicket`: filter the removed ticket's id
out of its column's bucket. -/
def removeTicketOptimistic (m : BoardModel) (ticket : Ticket) : BoardModel :=
  { m with
    ticketsByColumn := fun c =>
      if c = ticket.column then
        (m.ticketsByColumn ticket.column).filter (fun t => t.id ≠ ticket.id)
      else m.ticketsByColumn c }

/-- `removeTicket`: optimistic removal, then the remote delete
(`deleteResult`; `none` = success); on failure record the message and
reload via `refreshTickets`. -/
def removeTicket (m : BoardModel) (ticket : Ticket) (deleteResult : Option String)
    (fetchResult : Except String (List Ticket)) : BoardModel × List RemoteOp :=
  let m1 := removeTicketOptimistic m ticket
  match deleteResult with
  | none => (m1, [RemoteOp.deleteOp ticket.id])
  | some msg =>
    let m2 := { m1 with error := some msg }
    let res := refreshTickets m2 fetchResult
    (res.1, RemoteOp.deleteOp ticket.id :: res.2)

/- ## Sample states used by the concrete witnesses -/

/-- A concrete ticket in column `Good`. -/
def sampleTicket : Ticket :=
  { id := "a", title := "A", column := "Good", order := 1 }

/-- A concrete ticket in column `Bad` with body text. -/
def sampleTicketB : Ticket :=
  { id := "b", title := "B", column := "Bad", order := 1, content := some "body" }

/-- A concrete view model currently editing `sampleTicket`. -/
def sampleModel : BoardModel :=
  { ticketsByColumn := fun _ => [], loading := false, error := none, votes := [],
    editingTicketId := some "a", editingTitle := "A", editingContent := "" }

/- ## Controller theorems -/

/-- C3: when the editing title and content equal the ticket's current
values (missing content read as empty), `saveEdit` issues no remote
operation, leaves the ticket data (and every other field) unchanged, and
exits edit mode. -/
theorem saveEdit_idempotent_no_write (m : BoardModel) (ticket : Ticket)
    (updateResult : Option String) (fetchResult : Except String (List Ticket))
    (hT : m.editingTitle = ticket.title)
    (hC : m.editingContent = contentOrEmpty ticket) :
    saveEdit m ticket updateResult fetchResult
      = ({ m with editingTicketId := none }, []) := by
  rcases m with ⟨tbc, ld, er, vs, eid, et, ec⟩
  simp only at hT hC
  cases eid with
  | none => simp [saveEdit]
  | some e => simp [saveEdit, hT, hC]

/-- C3 witness: saving with unchanged title and content in a concrete
editing state. -/
theorem saveEdit_idempotent_no_write_witness :
    sampleModel.editingTitle = sampleTicket.title
    ∧ sampleModel.editingContent = contentOrEmpty sampleTicket
    ∧ saveEdit sampleModel sampleTicket none (Except.ok [])
        = ({ sampleModel with editingTicketId := none }, []) :=
  ⟨rfl, rfl,
    saveEdit_idempotent_no_write sampleModel sampleTicket none (Except.ok []) rfl rfl⟩

/-- C9: when no edit session is active, `saveEdit` returns immediately:
no remote operation and the whole view model unchanged, for every ticket
argument. -/
theorem saveEdit_no_session_noop (m : BoardModel) (ticket : Ticket)
    (updateResult : Option String) (fetchResult : Except String (List Ticket))
    (h : m.editingTicketId = none) :
    saveEdit m ticket updateResult fetchResult = (m, []) := by
  simp [saveEdit, h]

/-- C9 witness: `saveEdit` in a concrete state with no active session. -/
theorem saveEdit_no_session_noop_witness :
    ({ sampleModel with editingTicketId := none } : BoardModel).editingTicketId = none
    ∧ saveEdit { sampleModel with editingTicketId := none } sampleTicketB
        (some "boom") (Except.error "down")
      = ({ sampleModel with editingTicketId := none }, []) :=
  ⟨rfl,
    saveEdit_no_session_noop { sampleModel with editingTicketId := none } sampleTicketB
      (some "boom") (Except.error "down") rfl⟩

/-- C4: when the remote update inside `saveEdit` fails, the controller
stores the failure's message in the error flag and then performs a full
ticket reload — the trace shows a `fetchOp` after the failed `updateOp`,
and (the reload succeeding with `rows`) the buckets are rebuilt from the
authoritative rows, discarding the optimistic change. -/
theorem saveEdit_failure_triggers_reload (m : BoardModel) (ticket : Ticket)
    (eid msg : String) (rows : List Ticket)
    (hEdit : m.editingTicketId = some eid)
    (hChanged : m.editingTitle ≠ ticket.title ∨ m.editingContent ≠ contentOrEmpty ticket) :
    (saveEdit m ticket (some msg) (Except.ok rows)).1.error = some msg
    ∧ (saveEdit m ticket (some msg) (Except.ok rows)).2
        = [RemoteOp.updateOp ticket.id m.editingTitle m.editingContent, RemoteOp.fetchOp]
    ∧ (saveEdit m ticket (some msg) (Except.ok rows)).1.ticketsByColumn = fetchTickets rows
    ∧ (saveEdit m ticket (some msg) (Except.ok rows)).1.loading = false := by
  simp only [saveEdit, hEdit]
  rw [if_pos hChanged]
  simp [refreshTickets]

/-- C4 witness: a failing update during a concrete changed edit session,
followed by a successful reload. -/
theorem saveEdit_failure_triggers_reload_witness :
    ({ sampleModel with editingTitle := "A2" } : BoardModel).editingTicketId = some "a"
    ∧ (({ sampleModel with editingTitle := "A2" } : BoardModel).editingTitle ≠ sampleTicket.title
        ∨ ({ sampleModel with editingTitle := "A2" } : BoardModel).editingContent
            ≠ contentOrEmpty sampleTicket)
    ∧ ((saveEdit { sampleModel with editingTitle := "A2" } sampleTicket (some "boom")
          (Except.ok [sampleTicketB])).1.error = some "boom"
      ∧ (saveEdit { sampleModel with editingTitle := "A2" } sampleTicket (some "boom")
          (Except.ok [sampleTicketB])).2
          = [RemoteOp.updateOp sampleTicket.id "A2" "", RemoteOp.fetchOp]
      ∧ (saveEdit { sampleModel with editingTitle := "A2" } sampleTicket (some "boom")
          (Except.ok [sampleTicketB])).1.ticketsByColumn = fetchTickets [sampleTicketB]
      ∧ (saveEdit { sampleModel with editingTitle := "A2" } sampleTicket (some "boom")
          (Except.ok [sampleTicketB])).1.loading = false) :=
  ⟨rfl, Or.inl (by decide),
    saveEdit_failure_triggers_reload { sampleModel with editingTitle := "A2" } sampleTicket
      "a" "boom" [sampleTicketB] rfl (Or.inl (by decide))⟩

/-- C8: `editingTicketId` is the single edit session, so at most one
ticket is ever in edit mode (any two edited tickets share an id);
`startEdit` on the ticket already being edited changes nothing, and
`startEdit` on a different ticket `b` makes `b` the single edited ticket
with the editing fields seeded from `b`'s current values. -/
theorem startEdit_spec (m : BoardModel) (a b t1 t2 : Ticket)
    (hA : m.editingTicketId = some a.id) (hab : a.id ≠ b.id)
    (h1 : (startEdit m b).editingTicketId = some t1.id)
    (h2 : (startEdit m b).editingTicketId = some t2.id) :
    startEdit m a = m
    ∧ (startEdit m b).editingTicketId = some b.id
    ∧ (startEdit m b).editingTitle = b.title
    ∧ (startEdit m b).editingContent = contentOrEmpty b
    ∧ (startEdit m b).ticketsByColumn = m.ticketsByColumn
    ∧ t1.id = t2.id := by
  have hb : ¬ m.editingTicketId = some b.id := by
    rw [hA]
    simp [hab]
  have hsb : startEdit m b = { m with editingTicketId := some b.id, editingTitle := b.title, editingContent := contentOrEmpty b } := by
    simp [startEdit, hb]
  rw [hsb] at h1 h2
  have e1 : b.id = t1.id := by simpa using h1
  have e2 : b.id = t2.id := by simpa using h2
  exact ⟨by simp [startEdit, hA], by rw [hsb], by rw [hsb], by rw [hsb], by rw [hsb],
    by rw [← e1, ← e2]⟩

/-- C8 witness: switching the edit session from `sampleTicket` to
`sampleTicketB` in a concrete state. -/
theorem startEdit_spec_witness :
    sampleModel.editingTicketId = some sampleTicket.id
    ∧ sampleTicket.id ≠ sampleTicketB.id
    ∧ (startEdit sampleModel sampleTicketB).editingTicketId = some sampleTicketB.id
    ∧ (startEdit sampleModel sampleTicket = sampleModel
        ∧ (startEdit sampleModel sampleTicketB).editingTicketId = some sampleTicketB.id
        ∧ (startEdit sampleModel sampleTicketB).editingTitle = sampleTicketB.title
        ∧ (startEdit sampleModel sampleTicketB).editingContent = contentOrEmpty sampleTicketB
        ∧ (startEdit sampleModel sampleTicketB).ticketsByColumn = sampleModel.ticketsByColumn
        ∧ sampleTicketB.id = sampleTicketB.id) :=
  ⟨rfl, by decide, rfl,
    startEdit_spec sampleModel sampleTicket sampleTicketB sampleTicketB sampleTicketB
      rfl (by decide) rfl rfl⟩

/-- C6: a successful add places exactly one new ticket in the target
column's bucket — appended after the existing tickets, with title
`"New Ticket"`, content `"Double-click to edit title and details"`, and
`order` equal to the column's previous count plus one — and leaves every
other column's bucket unchanged. -/
theorem handleInstantAddTicket_adds_one (m : BoardModel)
    (columnTitle newId c : String)
    (hfresh : ∀ t ∈ m.ticketsByColumn columnTitle, t.id ≠ newId)
    (hc : c ≠ columnTitle) :
    (handleInstantAddTicket m columnTitle (Except.ok newId)).1.ticketsByColumn columnTitle
      = m.ticketsByColumn columnTitle
        ++ [newTicketRow columnTitle newId ((m.ticketsByColumn columnTitle).length + 1)]
    ∧ ((handleInstantAddTicket m columnTitle (Except.ok newId)).1.ticketsByColumn
          columnTitle).filter (fun t => t.id == newId)
      = [newTicketRow columnTitle newId ((m.ticketsByColumn columnTitle).length + 1)]
    ∧ (handleInstantAddTicket m columnTitle (Except.ok newId)).1.ticketsByColumn c
      = m.ticketsByColumn c := by
  refine ⟨by simp [handleInstantAddTicket], ?_, by simp [handleInstantAddTicket, hc]⟩
  simp only [handleInstantAddTicket, if_pos]
  rw [List.filter_append]
  have hold : (m.ticketsByColumn columnTitle).filter (fun t => t.id == newId) = [] := by
    rw [List.filter_eq_nil_iff]
    intro t ht
    simpa using hfresh t ht
  simp [hold, newTicketRow]

/-- C6 witness: adding to the empty `Ideas` column of a concrete model. -/
theorem handleInstantAddTicket_adds_one_witness :
    (∀ t ∈ sampleModel.ticketsByColumn "Ideas", t.id ≠ "n1")
    ∧ ("Good" : String) ≠ "Ideas"
    ∧ ((handleInstantAddTicket sampleModel "Ideas" (Except.ok "n1")).1.ticketsByColumn "Ideas"
        = sampleModel.ticketsByColumn "Ideas"
          ++ [newTicketRow "Ideas" "n1" ((sampleModel.ticketsByColumn "Ideas").length + 1)]
      ∧ ((handleInstantAddTicket sampleModel "Ideas" (Except.ok "n1")).1.ticketsByColumn
            "Ideas").filter (fun t => t.id == "n1")
        = [newTicketRow "Ideas" "n1" ((sampleModel.ticketsByColumn "Ideas").length + 1)]
      ∧ (handleInstantAddTicket sampleModel "Ideas" (Except.ok "n1")).1.ticketsByColumn "Good"
        = sampleModel.ticketsByColumn "Good") :=
  ⟨by simp [sampleModel], by decide,
    handleInstantAddTicket_adds_one sampleModel "Ideas" "n1" "Good"
      (by simp [sampleModel]) (by decide)⟩

/-- C10: the optimistic step of `removeTicket` touches only the bucket
keyed by the ticket's column — every other bucket and every other view
model field is unchanged — and within the affected bucket it keeps
exactly the tickets with a different id, in their original relative
order (the result is a sublist of the original bucket). -/
theorem removeTicketOptimistic_frame (m : BoardModel) (ticket t : Ticket) (c : String)
    (hc : c ≠ ticket.column) :
    (removeTicketOptimistic m ticket).ticketsByColumn c = m.ticketsByColumn c
    ∧ (removeTicketOptimistic m ticket).ticketsByColumn ticket.column
        = (m.ticketsByColumn ticket.column).filter (fun x => x.id ≠ ticket.id)
    ∧ ((removeTicketOptimistic m ticket).ticketsByColumn ticket.column).Sublist
        (m.ticketsByColumn ticket.column)
    ∧ (t ∈ (removeTicketOptimistic m ticket).ticketsByColumn ticket.column
        ↔ t ∈ m.ticketsByColumn ticket.column ∧ t.id ≠ ticket.id)
    ∧ (removeTicketOptimistic m ticket).error = m.error
    ∧ (removeTicketOptimistic m ticket).editingTicketId = m.editingTicketId
    ∧ (removeTicketOptimistic m ticket).votes = m.votes
    ∧ (removeTicketOptimistic m ticket).loading = m.loading := by
  refine ⟨by simp [removeTicketOptimistic, hc], by simp [removeTicketOptimistic], ?_, ?_,
    rfl, rfl, rfl, rfl⟩
  · simp only [removeTicketOptimistic, if_pos]
    exact List.filter_sublist _
  · simp [removeTicketOptimistic, List.mem_filter]

/-- C10 witness: the optimistic removal of `sampleTicket` from a concrete
model, checked against the untouched `Bad` bucket. -/
theorem removeTicketOptimistic_frame_witness :
    ("Bad" : String) ≠ sampleTicket.column
    ∧ ((removeTicketOptimistic sampleModel sampleTicket).ticketsByColumn "Bad"
        = sampleModel.ticketsByColumn "Bad"
      ∧ (removeTicketOptimistic sampleModel sampleTicket).ticketsByColumn sampleTicket.column
        = (sampleModel.ticketsByColumn sampleTicket.column).filter
            (fun x => x.id ≠ sampleTicket.id)
      ∧ ((removeTicketOptimistic sampleModel sampleTicket).ticketsByColumn
          sampleTicket.column).Sublist (sampleModel.ticketsByColumn sampleTicket.column)
      ∧ (sampleTicketB ∈ (removeTicketOptimistic sampleModel sampleTicket).ticketsByColumn
            sampleTicket.column
          ↔ sampleTicketB ∈ sampleModel.ticketsByColumn sampleTicket.column
            ∧ sampleTicketB.id ≠ sampleTicket.id)
      ∧ (removeTicketOptimistic sampleModel sampleTicket).error = sampleModel.error
      ∧ (removeTicketOptimistic sampleModel sampleTicket).editingTicketId
          = sampleModel.editingTicketId
      ∧ (removeTicketOptimistic sampleModel sampleTicket).votes = sampleModel.votes
      ∧ (removeTicketOptimistic sampleModel sampleTicket).loading = sampleModel.loading) :=
  ⟨by decide,
    removeTicketOptimistic_frame sampleModel sampleTicket sampleTicketB "Bad" (by decide)⟩

end VhBoard
